import Mathlib

/-!
Verification of the paginated fetch controller `useCharacters`
(src/my-app/src/components/characters/hooks.ts).

The hook is single-threaded, event-loop driven code.  We embed it shallowly:

* One network attempt of the `fetchData` closure (hooks.ts lines 15-62) is
  driven by a scripted `FetchOutcome` — what the `await fetch` / `await
  response.json()` pair delivers for that attempt: a decoded ok response, or a
  thrown value (the code itself converts a non-ok response into a thrown
  `Error`, lines 29-34, so a non-ok status is a particular thrown value).
* Executing `fetchData` produces the ordered list of observable actions it
  performs: React state-setter calls (`setLoading`, `setError`,
  `setCharacters`, `setPages`), the network attempts themselves, and the
  backoff waits.  This is the `Ev` event list.
* React state is the fold of the setter events over a `FetchState` record
  (the five `useState` cells of lines 5-9; `currentPage` is kept separately
  in `ControllerState` because only `setPage` writes it).
* The error auto-dismiss effect (lines 71-81) is embedded as a small timer
  machine: arming carries the absolute fire time, the effect cleanup clears
  the pending timeout, and a JavaScript truthiness test (`if (error)`) guards
  arming, exactly as in the source.

A trace scripts one outcome per attempt actually performed; all theorems use
traces long enough to cover every attempt of the run they describe.
-/

set_option autoImplicit false

/-- An item of the decoded page.  The `characters.ts` type declarations are
not under `src/`; modelled from the spec (section 6): at minimum a unique
stable `url` field plus opaque display fields such as `name`. -/
structure StarWarsCharacter where
  url : String
  name : String
deriving DecidableEq

/-- Navigation tokens of the current page (`Pages` in characters.ts,
modelled from the spec's `{ previous, next }` page-link pair). -/
structure Pages where
  previous : Option String
  next : Option String
deriving DecidableEq

/-- Decoded success body `{ previous, next, results }`
(`StarWarsApiResponse`, modelled from the spec, section 6). -/
structure StarWarsApiResponse where
  previous : Option String
  next : Option String
  results : List StarWarsCharacter
deriving DecidableEq

/-- A JavaScript thrown value, as far as the catch block of hooks.ts lines
43-58 can distinguish one: an `Error` instance carries `name`, `message` and
the (possibly absent) numeric `cause`; anything else fails the
`instanceof Error` guard. -/
inductive Thrown where
  | errObj (name : String) (message : String) (cause : Option Nat)
  | nonError
deriving DecidableEq

/-- What one network attempt delivers to the `try` block: a decoded ok
response (`response.ok` and `response.json()` succeeded), or a thrown
value (network failure, abort, decode failure, or the hook's own throw for a
non-ok status). -/
inductive FetchOutcome where
  | ok (d : StarWarsApiResponse)
  | exn (e : Thrown)
deriving DecidableEq

/-- hooks.ts line 30: the message  `<status>: <statusText>`  of the error
thrown for a non-ok response. -/
def statusMsg (status : Nat) (statusText : String) : String :=
  toString status ++ ": " ++ statusText

/-- hooks.ts lines 29-34: a response with a non-ok status makes the `try`
block throw an `Error` whose message is `statusMsg` and whose `cause` is the
numeric status. -/
def FetchOutcome.httpError (status : Nat) (statusText : String) : FetchOutcome :=
  FetchOutcome.exn (Thrown.errObj "Error" (statusMsg status statusText) (some status))

/-- Observable actions of one logical fetch sequence, in program order. -/
inductive Ev where
  | setLoading (b : Bool)
  | setError (e : Option String)
  | setCharacters (cs : List StarWarsCharacter)
  | setPages (p : Pages)
  | attempt (n : Nat)
  | wait (ms : Nat)
deriving DecidableEq

/-- hooks.ts line 13. -/
def MAX_RETRIES : Nat := 3

/-- hooks.ts lines 45-46: `status >= 400 && status < 500` where `status` is
`err.cause as number`; when `cause` is absent the JavaScript comparison with
`undefined` is false. -/
def isClientError : Option Nat → Bool
  | some st => 400 ≤ st && st < 500
  | none => false

/-- What the catch block (hooks.ts lines 43-58) decides to do with a caught
value, given the current attempt counter. -/
inductive CatchAction where
  | silent
  | fail (msg : String)
  | retry (delayMs : Nat)
deriving DecidableEq

/-- hooks.ts lines 43-58: a non-`Error` value and an `AbortError` are
swallowed; a client-error status fails immediately; an exhausted counter
fails; otherwise retry after `2 ^ attempts * 1000` milliseconds (line 55). -/
def handleCatch (attempts : Nat) (e : Thrown) : CatchAction :=
  match e with
  | Thrown.nonError => CatchAction.silent
  | Thrown.errObj nm msg cause =>
    if nm = "AbortError" then CatchAction.silent
    else if isClientError cause then CatchAction.fail msg
    else if MAX_RETRIES ≤ attempts then CatchAction.fail msg
    else CatchAction.retry (2 ^ attempts * 1000)

/-- The event list of `fetchData(attempts)` (hooks.ts lines 15-62) when the
successive attempts deliver the outcomes scripted in `trace`.  Every call
first runs lines 17-18 (`setLoading(true); setError(null)`), then performs
its attempt; the trailing `setLoading false` is the `finally` of lines
59-61, which runs after the awaited recursive retry call completes. -/
def fetchData (attempts : Nat) (trace : List FetchOutcome) : List Ev :=
  Ev.setLoading true :: Ev.setError none ::
    (match trace with
     | [] => []
     | FetchOutcome.ok d :: _ =>
       [Ev.attempt attempts,
        Ev.setPages { previous := d.previous, next := d.next },
        Ev.setCharacters d.results]
     | FetchOutcome.exn e :: rest =>
       Ev.attempt attempts ::
         (match handleCatch attempts e with
          | CatchAction.silent => []
          | CatchAction.fail m => [Ev.setError m]
          | CatchAction.retry d => Ev.wait d :: fetchData (attempts + 1) rest))
    ++ [Ev.setLoading false]

/-- The React state owned by the hook apart from `currentPage`
(hooks.ts lines 5-9). -/
structure FetchState where
  loading : Bool
  error : Option String
  characters : List StarWarsCharacter
  pages : Pages
deriving DecidableEq

/-- hooks.ts lines 5-9: initial values of the `useState` cells. -/
def initialFetchState : FetchState :=
  { loading := true, error := none, characters := [], pages := { previous := none, next := none } }

/-- Effect of one setter call on the state; `attempt` and `wait` do not touch
state. -/
def applyEv (s : FetchState) : Ev → FetchState
  | Ev.setLoading b => { s with loading := b }
  | Ev.setError e => { s with error := e }
  | Ev.setCharacters cs => { s with characters := cs }
  | Ev.setPages p => { s with pages := p }
  | Ev.attempt _ => s
  | Ev.wait _ => s

/-- State after a list of events. -/
def runEvents (s : FetchState) (evs : List Ev) : FetchState :=
  evs.foldl applyEv s

/-- Number of network attempts recorded in an event list. -/
def attemptsMade (evs : List Ev) : Nat :=
  (evs.filter fun e => match e with | Ev.attempt _ => true | _ => false).length

/-- The backoff waits recorded in an event list, in order. -/
def waits (evs : List Ev) : List Nat :=
  evs.filterMap fun e => match e with | Ev.wait d => some d | _ => none

/-- Checks that the tracked loading flag is `true` at every suspension point
(a network attempt or a backoff wait) of an event list, starting from flag
`l`. -/
def loadingAtSuspensions (l : Bool) : List Ev → Bool
  | [] => true
  | Ev.wait _ :: rest => l && loadingAtSuspensions l rest
  | Ev.attempt _ :: rest => l && loadingAtSuspensions l rest
  | Ev.setLoading b :: rest => loadingAtSuspensions b rest
  | _ :: rest => loadingAtSuspensions l rest

/-- The loading flag tracked across an event list. -/
def loadingAfter (l : Bool) : List Ev → Bool
  | [] => l
  | Ev.setLoading b :: rest => loadingAfter b rest
  | _ :: rest => loadingAfter l rest

theorem fetchData_nil (a : Nat) :
    fetchData a [] = [Ev.setLoading true, Ev.setError none, Ev.setLoading false] := rfl

theorem fetchData_ok (a : Nat) (d : StarWarsApiResponse) (rest : List FetchOutcome) :
    fetchData a (FetchOutcome.ok d :: rest) =
      [Ev.setLoading true, Ev.setError none, Ev.attempt a,
       Ev.setPages { previous := d.previous, next := d.next },
       Ev.setCharacters d.results, Ev.setLoading false] := rfl

theorem fetchData_exn (a : Nat) (e : Thrown) (rest : List FetchOutcome) :
    fetchData a (FetchOutcome.exn e :: rest) =
      (Ev.setLoading true :: Ev.setError none :: Ev.attempt a ::
        (match handleCatch a e with
         | CatchAction.silent => []
         | CatchAction.fail m => [Ev.setError m]
         | CatchAction.retry d => Ev.wait d :: fetchData (a + 1) rest))
      ++ [Ev.setLoading false] := rfl

theorem fetchData_exn_silent {a : Nat} {e : Thrown} (rest : List FetchOutcome)
    (h : handleCatch a e = CatchAction.silent) :
    fetchData a (FetchOutcome.exn e :: rest) =
      [Ev.setLoading true, Ev.setError none, Ev.attempt a, Ev.setLoading false] := by
  rw [fetchData_exn, h]
  rfl

theorem fetchData_exn_fail {a : Nat} {e : Thrown} {m : String} (rest : List FetchOutcome)
    (h : handleCatch a e = CatchAction.fail m) :
    fetchData a (FetchOutcome.exn e :: rest) =
      [Ev.setLoading true, Ev.setError none, Ev.attempt a, Ev.setError m,
       Ev.setLoading false] := by
  rw [fetchData_exn, h]
  rfl

theorem fetchData_exn_retry {a : Nat} {e : Thrown} {d : Nat} (rest : List FetchOutcome)
    (h : handleCatch a e = CatchAction.retry d) :
    fetchData a (FetchOutcome.exn e :: rest) =
      [Ev.setLoading true, Ev.setError none, Ev.attempt a, Ev.wait d]
        ++ fetchData (a + 1) rest ++ [Ev.setLoading false] := by
  rw [fetchData_exn, h]
  simp

theorem handleCatch_abortError (a : Nat) (m : String) (c : Option Nat) :
    handleCatch a (Thrown.errObj "AbortError" m c) = CatchAction.silent := rfl

theorem handleCatch_clientError {nm : String} {c : Option Nat} (a : Nat) (m : String)
    (hnm : nm ≠ "AbortError") (hc : isClientError c = true) :
    handleCatch a (Thrown.errObj nm m c) = CatchAction.fail m := by
  simp only [handleCatch]
  rw [if_neg hnm, if_pos hc]

theorem handleCatch_exhausted {nm : String} {c : Option Nat} {a : Nat} (m : String)
    (hnm : nm ≠ "AbortError") (hc : isClientError c = false) (ha : MAX_RETRIES ≤ a) :
    handleCatch a (Thrown.errObj nm m c) = CatchAction.fail m := by
  simp only [handleCatch]
  rw [if_neg hnm, if_neg (by simp [hc]), if_pos ha]

theorem handleCatch_retries {nm : String} {c : Option Nat} {a : Nat} (m : String)
    (hnm : nm ≠ "AbortError") (hc : isClientError c = false) (ha : a < MAX_RETRIES) :
    handleCatch a (Thrown.errObj nm m c) = CatchAction.retry (2 ^ a * 1000) := by
  simp only [handleCatch]
  rw [if_neg hnm, if_neg (by simp [hc]), if_neg (by omega)]

theorem runEvents_append (s : FetchState) (xs ys : List Ev) :
    runEvents s (xs ++ ys) = runEvents (runEvents s xs) ys := by
  simp [runEvents, List.foldl_append]

theorem loadingAtSuspensions_append (l : Bool) (xs ys : List Ev) :
    loadingAtSuspensions l (xs ++ ys)
      = (loadingAtSuspensions l xs && loadingAtSuspensions (loadingAfter l xs) ys) := by
  induction xs generalizing l with
  | nil => simp [loadingAtSuspensions, loadingAfter]
  | cons e rest ih =>
    cases e <;> simp [loadingAtSuspensions, loadingAfter, ih, Bool.and_assoc]

/-- In every run of `fetchData`, the tracked loading flag is `true` at every
network attempt and at every backoff wait, whatever flag the run starts
from: lines 17 and 59-61 bracket each attempt, and the `finally` of an
enclosing frame only runs after its awaited retry has finished. -/
theorem loadingAtSuspensions_fetchData (trace : List FetchOutcome) (a : Nat) (l : Bool) :
    loadingAtSuspensions l (fetchData a trace) = true := by
  induction trace generalizing a l with
  | nil => rfl
  | cons o rest ih =>
    cases o with
    | ok d => rfl
    | exn e =>
      cases h : handleCatch a e with
      | silent => rw [fetchData_exn_silent rest h]; rfl
      | fail m => rw [fetchData_exn_fail rest h]; rfl
      | retry d =>
        rw [fetchData_exn_retry rest h]
        simp only [List.cons_append, List.nil_append, List.append_eq,
          loadingAtSuspensions, loadingAtSuspensions_append, ih, Bool.true_and]

theorem runEvents_replicate_setLoading_false (k : Nat) (s : FetchState)
    (h : s.loading = false) :
    runEvents s (List.replicate k (Ev.setLoading false)) = s := by
  induction k with
  | zero => rfl
  | succ n ih =>
    rw [List.replicate_succ]
    have : applyEv s (Ev.setLoading false) = s := by
      cases s
      simp_all [applyEv]
    simpa [runEvents, this] using ih

/-- The message of the `AbortError` `DOMException` a browser delivers when an
in-flight `fetch` (or body read) is cancelled through its signal. -/
def abortMsg : String := "The operation was aborted."

/-- The events a superseded `fetchData` frame still performs when it is
cancelled while its network attempt is in flight (hooks.ts lines 66-68 abort
the signal; the attempt rejects with an `AbortError`).  The frame's
`setLoading(true)`, `setError(null)` and the attempt itself happened before
the cancellation, so the post-cancellation tail is everything after them:
the catch filters the `AbortError` out (line 44) and the `finally` (line 60)
still calls `setLoading(false)`; each of the `k` enclosing recursive frames
then runs its own `finally` as well. -/
def inFlightAbortTail (a : Nat) (k : Nat) : List Ev :=
  (fetchData a [FetchOutcome.exn (Thrown.errObj "AbortError" abortMsg none)]).drop 3
    ++ List.replicate k (Ev.setLoading false)

/-- The events a superseded sequence still performs when it is cancelled
while suspended in a backoff wait at attempt counter `a` (the
`setTimeout`-backed promise of line 56 is not tied to the abort signal, so
it resumes regardless): the timer fires, `fetchData(a+1)` runs in full —
its lines 17-18 included — and its `fetch` against the already-aborted
signal rejects immediately with an `AbortError`; afterwards the suspended
frame's own `finally` and those of its `k` enclosing frames run. -/
def backoffAbortTail (a : Nat) (k : Nat) : List Ev :=
  fetchData (a + 1) [FetchOutcome.exn (Thrown.errObj "AbortError" abortMsg none)]
    ++ List.replicate (k + 1) (Ev.setLoading false)

/-- The hook state including the page cursor (`currentPage`, hooks.ts
line 8). -/
structure ControllerState where
  fetch : FetchState
  currentPage : Option String
deriving DecidableEq

/-- hooks.ts lines 83-88: the `setPage` guard `if (!page) return` drops the
JavaScript falsy page values — `null` and the empty string — and otherwise
stores the token as the new cursor. -/
def setPage (cur : Option String) (page : Option String) : Option String :=
  match page with
  | none => cur
  | some p => if p = "" then cur else some p

/-- A `setPage` call followed by the settled run of the effect it may
trigger: the effect of hooks.ts lines 11-69 has dependency `[currentPage]`,
so it re-runs exactly when the cursor value changed, starting a fresh
logical sequence (`fetchData(0)`) whose attempts deliver the outcomes
scripted in `trace`. -/
def goToPage (cs : ControllerState) (page : Option String) (trace : List FetchOutcome) :
    ControllerState :=
  let newPage := setPage cs.currentPage page
  if newPage = cs.currentPage then cs
  else { currentPage := newPage, fetch := runEvents cs.fetch (fetchData 0 trace) }

/-- hooks.ts line 75: the auto-dismiss delay. -/
def ERROR_DISMISS_MS : Nat := 3000

/-- JavaScript truthiness of the `error` value tested at hooks.ts line 72:
`null` and the empty string are falsy. -/
def truthyError : Option String → Bool
  | some s => s ≠ ""
  | none => false

/-- State of the auto-dismiss effect (hooks.ts lines 71-81): the current
`error` value and the absolute fire time of the pending `setTimeout`, if one
is armed. -/
structure ErrTimerState where
  error : Option String
  pending : Option Nat
deriving DecidableEq

/-- hooks.ts lines 77-79: the effect cleanup clears the pending timeout. -/
def errEffectCleanup (s : ErrTimerState) : ErrTimerState :=
  { s with pending := none }

/-- hooks.ts lines 72-76: the effect body arms a single
`ERROR_DISMISS_MS`-millisecond timeout when `error` is truthy, and does
nothing otherwise. -/
def errEffectBody (now : Nat) (s : ErrTimerState) : ErrTimerState :=
  if truthyError s.error then { s with pending := some (now + ERROR_DISMISS_MS) } else s

/-- A change of the `error` state cell at time `now`: React runs the
previous effect's cleanup, then the effect body for the new value. -/
def errChange (now : Nat) (s : ErrTimerState) (e : Option String) : ErrTimerState :=
  errEffectBody now (errEffectCleanup { s with error := e })

/-- The armed timeout fires at its scheduled time: `setError(null)`
(hooks.ts line 74), which in turn re-runs the effect for the cleared
value. -/
def errTimerFire (now : Nat) (s : ErrTimerState) : ErrTimerState :=
  match s.pending with
  | some t => if t = now then errChange now s none else s
  | none => s

/-- Timestamped happenings of the auto-dismiss machine. -/
inductive ErrEvent where
  | change (t : Nat) (e : Option String)
  | fire (t : Nat)
deriving DecidableEq

def runErrEvents (s : ErrTimerState) : List ErrEvent → ErrTimerState
  | [] => s
  | ErrEvent.change t e :: rest => runErrEvents (errChange t s e) rest
  | ErrEvent.fire t :: rest => runErrEvents (errTimerFire t s) rest

/-- The timeline of the scenario in which `error` becomes `some m` at `t0`
and no further error activity happens: the only later happening is the armed
timeout firing at `t0 + ERROR_DISMISS_MS`. -/
def soleErrorTimeline (t0 : Nat) (m : String) : List ErrEvent :=
  [ErrEvent.change t0 (some m), ErrEvent.fire (t0 + ERROR_DISMISS_MS)]

def errEventTime : ErrEvent → Nat
  | ErrEvent.change t _ => t
  | ErrEvent.fire t => t

/-- The error value sampled at time `t` in the sole-error scenario: the
machine has processed exactly the happenings scheduled no later than `t`. -/
def observedErrorAt (t0 : Nat) (m : String) (t : Nat) : Option String :=
  (runErrEvents { error := none, pending := none }
    ((soleErrorTimeline t0 m).filter fun ev => errEventTime ev ≤ t)).error

/-- C1 counterexample: with the server answering 503 on every attempt, the
controller does NOT stop after 3 network attempts with waits 1000 ms and
2000 ms.  `attempts >= MAX_RETRIES` (hooks.ts line 50) is only checked after
a failed attempt, so attempts 0, 1, 2 all retry and a 4th attempt runs. -/
theorem c1_counterexample :
    attemptsMade (fetchData 0
      (List.replicate 4 (FetchOutcome.httpError 503 "Service Unavailable"))) ≠ 3
    ∧ waits (fetchData 0
        (List.replicate 4 (FetchOutcome.httpError 503 "Service Unavailable"))) ≠ [1000, 2000] := by
  decide

/-- C1 (amended): for every logical fetch sequence in which the server
responds 503 on every attempt, the controller performs exactly 4 network
attempts in total (the initial attempt plus `MAX_RETRIES` = 3 retries),
waiting 1000 ms, 2000 ms and 4000 ms before the 2nd, 3rd and 4th attempts,
and afterwards sets `error` to the failure message of the last attempt and
clears `loading`. -/
theorem c1_all_503_four_attempts (t0 t1 t2 t3 : String) (rest : List FetchOutcome)
    (s : FetchState) :
    attemptsMade (fetchData 0 (FetchOutcome.httpError 503 t0 :: FetchOutcome.httpError 503 t1 ::
      FetchOutcome.httpError 503 t2 :: FetchOutcome.httpError 503 t3 :: rest)) = 4
    ∧ waits (fetchData 0 (FetchOutcome.httpError 503 t0 :: FetchOutcome.httpError 503 t1 ::
        FetchOutcome.httpError 503 t2 :: FetchOutcome.httpError 503 t3 :: rest)) =
        [1000, 2000, 4000]
    ∧ runEvents s (fetchData 0 (FetchOutcome.httpError 503 t0 :: FetchOutcome.httpError 503 t1 ::
        FetchOutcome.httpError 503 t2 :: FetchOutcome.httpError 503 t3 :: rest)) =
        { loading := false, error := some (statusMsg 503 t3),
          characters := s.characters, pages := s.pages } :=
  ⟨rfl, rfl, rfl⟩

/-- C2 counterexample: a cancelled logical fetch sequence does still mutate
state after its cancellation.  First conjunct: a new sequence is mid-flight
(its first three actions applied to the fresh controller state), and the
superseded sequence's `AbortError` rejection is then delivered: its
`finally` (hooks.ts line 60) sets `loading` to false, changing the state.
Second conjunct: the first sequence was cancelled during its backoff wait
and the replacing sequence has already settled with a 404 error; when the
untied backoff timer (line 56) fires, the superseded sequence's retry call
re-runs lines 17-18 and wipes the error the new sequence had surfaced. -/
theorem c2_counterexample :
    runEvents
        (runEvents initialFetchState
          ((fetchData 0 [FetchOutcome.ok
            { previous := none, next := some "p2", results := [] }]).take 3))
        (inFlightAbortTail 0 0)
      ≠ runEvents initialFetchState
          ((fetchData 0 [FetchOutcome.ok
            { previous := none, next := some "p2", results := [] }]).take 3)
    ∧ (runEvents
          (runEvents initialFetchState (fetchData 0 [FetchOutcome.httpError 404 "Not Found"]))
          (backoffAbortTail 0 0)).error
      ≠ (runEvents initialFetchState (fetchData 0 [FetchOutcome.httpError 404 "Not Found"])).error := by
  decide

/-- C2 (amended): a logical fetch sequence superseded by a new `goToPage`
call or by teardown never writes `characters`, `pages`, or any non-null
`error` after its cancellation, but it is not fully silent: the `finally`
handlers of its open frames still clear `loading`, and a sequence cancelled
during a backoff wait additionally re-runs lines 17-18 when its timer fires
(setting `loading` true and resetting `error` to null) before the retried
fetch rejects against the aborted signal. -/
theorem c2_superseded_tail_effects (a k : Nat) (s : FetchState) :
    runEvents s (inFlightAbortTail a k) = { s with loading := false }
    ∧ runEvents s (backoffAbortTail a k) = { s with loading := false, error := none } := by
  constructor
  · unfold inFlightAbortTail
    rw [fetchData_exn_silent [] (handleCatch_abortError a abortMsg none), runEvents_append]
    exact runEvents_replicate_setLoading_false k _ rfl
  · unfold backoffAbortTail
    rw [fetchData_exn_silent [] (handleCatch_abortError (a + 1) abortMsg none), runEvents_append]
    exact runEvents_replicate_setLoading_false (k + 1) _ rfl

/-- C3 (confirmed): a fetch attempt answered with any status in [400, 500)
makes the sequence fail after exactly 1 attempt, with no retry and no
backoff wait: `error` is set to the failure message and `loading` becomes
false. -/
theorem c3_client_error_fails_fast (st : Nat) (txt : String) (rest : List FetchOutcome)
    (s : FetchState) (h1 : 400 ≤ st) (h2 : st < 500) :
    attemptsMade (fetchData 0 (FetchOutcome.httpError st txt :: rest)) = 1
    ∧ waits (fetchData 0 (FetchOutcome.httpError st txt :: rest)) = []
    ∧ runEvents s (fetchData 0 (FetchOutcome.httpError st txt :: rest)) =
        { loading := false, error := some (statusMsg st txt),
          characters := s.characters, pages := s.pages } := by
  have hc : isClientError (some st) = true := by
    simp only [isClientError]
    rw [decide_eq_true h1, decide_eq_true h2]
    rfl
  have he : fetchData 0 (FetchOutcome.httpError st txt :: rest) =
      [Ev.setLoading true, Ev.setError none, Ev.attempt 0,
       Ev.setError (statusMsg st txt), Ev.setLoading false] := by
    simp only [FetchOutcome.httpError]
    exact fetchData_exn_fail rest (handleCatch_clientError 0 (statusMsg st txt) (by decide) hc)
  refine ⟨?_, ?_, ?_⟩ <;> rw [he] <;> rfl

/-- C3 witness at status 404. -/
theorem c3_witness :
    attemptsMade (fetchData 0 [FetchOutcome.httpError 404 "Not Found"]) = 1
    ∧ waits (fetchData 0 [FetchOutcome.httpError 404 "Not Found"]) = []
    ∧ runEvents initialFetchState (fetchData 0 [FetchOutcome.httpError 404 "Not Found"]) =
        { loading := false, error := some (statusMsg 404 "Not Found"),
          characters := initialFetchState.characters, pages := initialFetchState.pages } :=
  c3_client_error_fails_fast 404 "Not Found" [] initialFetchState (by decide) (by decide)

/-- C4 (confirmed): whatever the state a sequence starts from and whatever
the attempt counter, a successful attempt settles the sequence with `items`
equal to exactly the decoded `results` of that response (replaced wholesale,
never appended) and `pages.previous` / `pages.next` equal to that same
response's links, with `error` null and `loading` cleared: `items` and page
links are mutated together from the same response (hooks.ts lines 36-42). -/
theorem c4_success_replaces_items_and_pages (a : Nat) (d : StarWarsApiResponse)
    (rest : List FetchOutcome) (s : FetchState) :
    runEvents s (fetchData a (FetchOutcome.ok d :: rest)) =
      { loading := false, error := none, characters := d.results,
        pages := { previous := d.previous, next := d.next } } :=
  rfl

/-- C5 (confirmed): `goToPage(null)` is a no-op — the guard of hooks.ts
lines 84-86 returns before `setCurrentPage`, so the cursor keeps its value,
the effect does not re-run, no fetch sequence starts, and the whole
controller state is unchanged, whatever outcomes a new sequence would have
seen. -/
theorem c5_goToPage_null_noop (cs : ControllerState) (trace : List FetchOutcome) :
    goToPage cs none trace = cs ∧ setPage cs.currentPage none = cs.currentPage := by
  constructor
  · simp [goToPage, setPage]
  · rfl

/-- C6 counterexample: an error surfaced by a previous sequence does NOT
remain visible atop a new load.  Starting a sequence over a state carrying
the stale error "boom", already after the sequence's first two actions —
before any response has arrived — the error has been cleared, because line
18 (`setError(null)`) runs at the start of every attempt. -/
theorem c6_counterexample :
    (runEvents
        { loading := false, error := some "boom", characters := [],
          pages := { previous := none, next := none } }
        ((fetchData 0 [FetchOutcome.ok
          { previous := none, next := some "p2", results := [] }]).take 2)).error = none
    ∧ (runEvents
        { loading := false, error := some "boom", characters := [],
          pages := { previous := none, next := none } }
        ((fetchData 0 [FetchOutcome.ok
          { previous := none, next := some "p2", results := [] }]).take 2)).error
        ≠ some "boom" := by
  decide

/-- C6 (amended): at the start of every attempt of a logical fetch sequence
the controller DOES proactively clear `error`: its first two actions are
always `setLoading(true)` and `setError(null)` (hooks.ts lines 17-18), so
after them `error` is null and `loading` is true whatever the previous
state held — a stale error from an earlier sequence does not stay visible
once the new sequence starts (only the separate auto-dismiss timer clears
an error that no new sequence follows). -/
theorem c6_error_cleared_at_sequence_start (a : Nat) (trace : List FetchOutcome)
    (s : FetchState) :
    (fetchData a trace).take 2 = [Ev.setLoading true, Ev.setError none]
    ∧ (runEvents s ((fetchData a trace).take 2)).error = none
    ∧ (runEvents s ((fetchData a trace).take 2)).loading = true := by
  have h : (fetchData a trace).take 2 = [Ev.setLoading true, Ev.setError none] := by
    cases trace with
    | nil => rfl
    | cons o rest =>
      cases o with
      | ok d => rfl
      | exn e => rw [fetchData_exn]; rfl
  refine ⟨h, ?_, ?_⟩ <;> rw [h] <;> rfl

/-- C7 (confirmed): a transient failure at 0-based attempt counter `a` that
triggers a retry (no client-error status, counter below `MAX_RETRIES`)
makes the controller wait exactly `2 ^ a * 1000` milliseconds immediately
before the next attempt (hooks.ts lines 55-57), and the tracked `loading`
flag is true at every backoff wait and at every network attempt of the run,
whatever flag value the run is entered with. -/
theorem c7_backoff_wait_and_loading (a : Nat) (nm m : String) (c : Option Nat)
    (rest : List FetchOutcome) (l : Bool)
    (hnm : nm ≠ "AbortError") (hc : isClientError c = false) (ha : a < MAX_RETRIES) :
    fetchData a (FetchOutcome.exn (Thrown.errObj nm m c) :: rest) =
      [Ev.setLoading true, Ev.setError none, Ev.attempt a, Ev.wait (2 ^ a * 1000)]
        ++ fetchData (a + 1) rest ++ [Ev.setLoading false]
    ∧ waits (fetchData a (FetchOutcome.exn (Thrown.errObj nm m c) :: rest)) =
        2 ^ a * 1000 :: waits (fetchData (a + 1) rest)
    ∧ loadingAtSuspensions l (fetchData a (FetchOutcome.exn (Thrown.errObj nm m c) :: rest))
        = true := by
  have he := fetchData_exn_retry rest (handleCatch_retries m hnm hc ha)
  refine ⟨he, ?_, loadingAtSuspensions_fetchData _ _ _⟩
  rw [he]
  simp [waits, List.filterMap_append]

/-- C7 witness: a 503 at attempt counter 1 waits `2 ^ 1 * 1000` ms. -/
theorem c7_witness :
    fetchData 1 [FetchOutcome.exn (Thrown.errObj "Error" "503: Service Unavailable" (some 503))] =
      [Ev.setLoading true, Ev.setError none, Ev.attempt 1, Ev.wait (2 ^ 1 * 1000)]
        ++ fetchData 2 [] ++ [Ev.setLoading false]
    ∧ waits (fetchData 1
        [FetchOutcome.exn (Thrown.errObj "Error" "503: Service Unavailable" (some 503))]) =
        2 ^ 1 * 1000 :: waits (fetchData 2 [])
    ∧ loadingAtSuspensions false (fetchData 1
        [FetchOutcome.exn (Thrown.errObj "Error" "503: Service Unavailable" (some 503))])
        = true :=
  c7_backoff_wait_and_loading 1 "Error" "503: Service Unavailable" (some 503) [] false
    (by decide) (by decide) (by decide)

/-- C8 counterexample: a transition of `error` from null to the non-null
(but JavaScript-falsy) empty string arms NO timer: the guard of hooks.ts
line 72 is a truthiness test, not a null test.  The pending slot stays
empty and a later firing time finds nothing to fire, so the empty-string
error is never auto-dismissed. -/
theorem c8_counterexample :
    (errChange 0 { error := none, pending := none } (some "")).error = some ""
    ∧ (errChange 0 { error := none, pending := none } (some "")).pending = none
    ∧ errTimerFire ERROR_DISMISS_MS (errChange 0 { error := none, pending := none } (some "")) =
        errChange 0 { error := none, pending := none } (some "") := by
  decide

/-- C8 (amended): whenever `error` transitions from null to a truthy value
(non-null and non-empty), a single `ERROR_DISMISS_MS` = 3000 ms timer is
armed whose firing resets `error` to null; any change of `error` cancels
the pending timer through the effect cleanup, and a fresh timer is armed
exactly when the new value is truthy; tearing the controller down runs the
same cleanup, cancelling the pending timer; and in the scenario where an
error becomes active and no further error occurs, the error stays visible
(equal to its message) at every sampled time strictly before the 3000 ms
elapse and is null at every time from 3000 ms on. -/
theorem c8_error_autodismiss :
    (∀ (s : ErrTimerState) (t0 : Nat) (m : String), m ≠ "" →
      errChange t0 s (some m) =
        { error := some m, pending := some (t0 + ERROR_DISMISS_MS) })
    ∧ (∀ (m : String) (tf : Nat),
        errTimerFire tf { error := some m, pending := some tf } =
          { error := none, pending := none })
    ∧ (∀ (s : ErrTimerState) (t1 : Nat) (e : Option String),
        (errChange t1 s e).error = e
        ∧ (errChange t1 s e).pending =
            (if truthyError e then some (t1 + ERROR_DISMISS_MS) else none))
    ∧ (∀ s : ErrTimerState, (errEffectCleanup s).pending = none)
    ∧ (∀ (t0 t : Nat) (m : String), m ≠ "" → t0 ≤ t → t < t0 + ERROR_DISMISS_MS →
        observedErrorAt t0 m t = some m)
    ∧ (∀ (t0 t : Nat) (m : String), m ≠ "" → t0 + ERROR_DISMISS_MS ≤ t →
        observedErrorAt t0 m t = none) := by
  refine ⟨?_, ?_, ?_, ?_, ?_, ?_⟩
  · intro s t0 m hm
    simp [errChange, errEffectCleanup, errEffectBody, truthyError, hm]
  · intro m tf
    simp [errTimerFire, errChange, errEffectCleanup, errEffectBody, truthyError]
  · intro s t1 e
    cases e with
    | none => simp [errChange, errEffectCleanup, errEffectBody, truthyError]
    | some m =>
      by_cases hm : m = ""
      · simp [errChange, errEffectCleanup, errEffectBody, truthyError, hm]
      · simp [errChange, errEffectCleanup, errEffectBody, truthyError, hm]
  · intro s
    rfl
  · intro t0 t m hm h0 hlt
    have hno : ¬ (t0 + ERROR_DISMISS_MS ≤ t) := by omega
    simp only [observedErrorAt, soleErrorTimeline, errEventTime, List.filter,
      decide_eq_true h0, decide_eq_false hno]
    simp [runErrEvents, errChange, errEffectCleanup, errEffectBody, truthyError, hm]
  · intro t0 t m hm hge
    have h0 : t0 ≤ t := by omega
    simp only [observedErrorAt, soleErrorTimeline, errEventTime, List.filter,
      decide_eq_true h0, decide_eq_true hge]
    simp [runErrEvents, errChange, errEffectCleanup, errEffectBody, errTimerFire,
      truthyError, hm]

/-- C8 witness: the error "boom" set at time 5 arms a timer for time 3005,
the firing resets the state, the error is still visible at time 3004 and
gone at time 3005. -/
theorem c8_witness :
    errChange 5 { error := none, pending := none } (some "boom") =
      { error := some "boom", pending := some (5 + ERROR_DISMISS_MS) }
    ∧ errTimerFire 3005 { error := some "boom", pending := some 3005 } =
        { error := none, pending := none }
    ∧ observedErrorAt 5 "boom" 3004 = some "boom"
    ∧ observedErrorAt 5 "boom" 3005 = none :=
  ⟨c8_error_autodismiss.1 { error := none, pending := none } 5 "boom" (by decide),
   c8_error_autodismiss.2.1 "boom" 3005,
   c8_error_autodismiss.2.2.2.2.1 5 3004 "boom" (by decide) (by decide) (by decide),
   c8_error_autodismiss.2.2.2.2.2 5 3005 "boom" (by decide) (by decide)⟩

/-- C9 (confirmed): the `setPage` guard treats every falsy token as absent —
calling it with the empty string (a present `PageToken` value) is as much a
no-op as calling it with null: the cursor is unchanged, the effect does not
re-run, no fetch sequence starts, and the controller state is untouched. -/
theorem c9_setPage_empty_string_noop (cs : ControllerState) (trace : List FetchOutcome) :
    goToPage cs (some "") trace = cs ∧ setPage cs.currentPage (some "") = cs.currentPage := by
  constructor
  · simp [goToPage, setPage]
  · simp [setPage]

/-- C10 (confirmed): an attempt that fails by throwing a value that is not
an `Error` instance is silently swallowed by the `instanceof` guard of
hooks.ts line 44: the run performs that single attempt and nothing else —
no error message is ever written (`setError` only occurs as the
unconditional null reset of line 18, before the attempt), no backoff wait
and no retry happen, and the `finally` clears `loading` — so the consumer
observes no surfaced failure for the sequence. -/
theorem handleCatch_nonError (a : Nat) :
    handleCatch a Thrown.nonError = CatchAction.silent := rfl

theorem c10_non_error_throw_swallowed (a : Nat) (rest : List FetchOutcome) (s : FetchState) :
    fetchData a (FetchOutcome.exn Thrown.nonError :: rest) =
      [Ev.setLoading true, Ev.setError none, Ev.attempt a, Ev.setLoading false]
    ∧ runEvents s (fetchData a (FetchOutcome.exn Thrown.nonError :: rest)) =
        { s with loading := false, error := none } := by
  constructor
  · exact fetchData_exn_silent rest (handleCatch_nonError a)
  · rw [fetchData_exn_silent rest (handleCatch_nonError a)]
    rfl
